import Mathlib

/-!
Verification of the furniture-shop product catalog service.

Shallow embedding of the Go sources:
  internal/service/product_service.go   (Catalog Service)
  internal/service/image_service.go     (image validation / upload / delete)
  internal/repository/postgres/product_repo.go (Delete / UpdateStock rows-affected logic)
  internal/transport/http/handler/product.go   (pagination normalization, hasMore)

External collaborators (SQL driver, S3 client, redis client) are modelled as
an oracle environment `SvcEnv` giving the outcome of each call; every service
function returns its Go result together with the ordered list of collaborator
calls it performed (`List Effect`), so that ordering, exactly-once and
frame properties are provable.
-/

namespace FurnShop

/-- Go `error` values relevant to the catalog code.  Go compares errors by
identity (`==`), so a sentinel from `errors.New` (the `err...` constructors,
from pkg/utils/errors.go) is never equal to an error freshly created by
`fmt.Errorf` (`fmtErrorf`), nor to a wrapping error (`wrapped`,
`wrapFileUploadFailed` for `fmt.Errorf("%w: %v", ErrFileUploadFailed, err)`). -/
inductive GoError where
  | errProductNotFound
  | errFileTooLarge
  | errInvalidFileType
  | wrapFileUploadFailed (inner : GoError)
  | wrapped (ctx : String) (inner : GoError)
  | fmtErrorf (msg : String)
deriving DecidableEq, Repr

/-- entity.Product (internal/entity/product.go).  Timestamps abstracted to Int. -/
structure Product where
  id : Int
  name : String
  description : String
  price : Float
  category : String
  stock : Int
  imageURL : String
  createdAt : Int
  updatedAt : Int
deriving Repr

/-- multipart.FileHeader: the fields the code reads (Filename, Size,
Header.Get "Content-Type"). -/
structure FileHeader where
  filename : String
  size : Int
  contentType : String
deriving DecidableEq, Repr

/-- The configuration fields used by ImageService (internal/config/config.go). -/
structure Config where
  maxUploadSize : Int
  allowedImageTypes : List String
deriving DecidableEq, Repr

/-- One collaborator call made by the service, in program order. -/
inductive Effect where
  | storageUpload (filename : String)
  | deleteFile (url : String)
  | repoGetByID (id : Int)
  | repoCreate
  | repoUpdate (id : Int)
  | repoDelete (id : Int)
  | repoUpdateStock (id : Int) (stock : Int)
  | repoList (category : String) (limit offset : Int)
  | repoCount (category : String)
  | cacheGet (key : String)
  | cacheSetAsync (key : String)
  | cacheDelete (key : String)
deriving DecidableEq, Repr

/-- Oracle environment: the outcome each external call would produce.
`execDelete` / `execUpdateStock` give the rows-affected of the SQL Exec
(or a driver error), as consumed by ProductRepo.Delete / UpdateStock.
`cacheGet`: `.ok (some p)` a hit, `.ok none` redis.Nil (miss, dest untouched),
`.error e` a backend/unmarshal error.  `cacheSet` is the outcome of the
fire-and-forget cache population; the service never consults it. -/
structure SvcEnv where
  storageUpload : Except GoError String
  storageDelete : String → Except GoError Unit
  repoGetByID : Int → Except GoError (Option Product)
  repoCreate : Product → Except GoError Int
  repoUpdate : Product → Except GoError Unit
  execDelete : Int → Except GoError Int
  execUpdateStock : Int → Int → Except GoError Int
  repoList : String → Int → Int → Except GoError (List Product)
  repoCount : String → Except GoError Int
  cacheGet : String → Except GoError (Option Product)
  cacheSet : String → Except GoError Unit

/-! ### Go primitives used by the cache-key expression `string(rune(id))` -/

/-- Go conversion int → rune (= int32): truncation to 32 bits, signed. -/
def int32ofInt (n : Int) : Int :=
  (n + 2 ^ 31) % 2 ^ 32 - 2 ^ 31

/-- Go `string(r)` for a rune `r`: the UTF-8 string of the code point when it
is valid (0 ≤ r ≤ 0x10FFFF and not a surrogate), otherwise "�". -/
def goStringOfRune (n : Int) : String :=
  let r := int32ofInt n
  if 0 ≤ r ∧ (r < 0xD800 ∨ (0xE000 ≤ r ∧ r ≤ 0x10FFFF)) then
    String.singleton (Char.ofNat r.toNat)
  else
    String.singleton (Char.ofNat 0xFFFD)

/-- The single-item cache key the code builds at all three call sites
(GetProduct, UpdateStock, invalidateProductCache): `"product:"+string(rune(id))`. -/
def productCacheKey (id : Int) : String :=
  "product:" ++ goStringOfRune id

/-! ### Image service (internal/service/image_service.go) -/

/-- filepath.Ext: suffix starting at the final dot of the final
slash-separated element; "" if there is no dot. -/
def extScan : List Char → List Char → Option (List Char)
  | [], _ => none
  | c :: rest, acc =>
    if c = '/' then none
    else if c = '.' then some (c :: acc)
    else extScan rest (c :: acc)

def filepathExt (path : String) : String :=
  match extScan path.data.reverse [] with
  | none => ""
  | some cs => String.mk cs

/-- strings.ToLower, modelled character-wise (coincides with Go on the ASCII
extensions the allow-table contains). -/
def goToLower (s : String) : String :=
  String.mk (s.data.map Char.toLower)

/-- ImageService.isAllowedImageType: linear scan of cfg.AllowedImageTypes. -/
def isAllowedImageType (cfg : Config) (contentType : String) : Bool :=
  cfg.allowedImageTypes.any (fun allowedType => contentType == allowedType)

/-- The fixed extension → canonical MIME table in isAllowedExtension. -/
def extToMime (ext : String) : Option String :=
  if ext = ".jpg" then some "image/jpeg"
  else if ext = ".jpeg" then some "image/jpeg"
  else if ext = ".png" then some "image/png"
  else if ext = ".webp" then some "image/webp"
  else none

/-- ImageService.isAllowedExtension. -/
def isAllowedExtension (cfg : Config) (ext : String) : Bool :=
  match extToMime ext with
  | none => false
  | some mimeType => isAllowedImageType cfg mimeType

/-- ImageService.ValidateImage: size check, declared-MIME check, extension
check, in that order; pure, performs no collaborator call. -/
def ValidateImage (cfg : Config) (fileHeader : FileHeader) : Except GoError Unit :=
  if fileHeader.size > cfg.maxUploadSize then
    .error .errFileTooLarge
  else if !(isAllowedImageType cfg fileHeader.contentType) then
    .error .errInvalidFileType
  else if !(isAllowedExtension cfg (goToLower (filepathExt fileHeader.filename))) then
    .error .errInvalidFileType
  else
    .ok ()

/-- ImageService.UploadImage: validate, then storage.UploadFile; a storage
failure is wrapped with ErrFileUploadFailed. -/
def UploadImage (cfg : Config) (env : SvcEnv) (header : FileHeader) :
    Except GoError String × List Effect :=
  match ValidateImage cfg header with
  | .error e => (.error e, [])
  | .ok _ =>
    match env.storageUpload with
    | .error e => (.error (.wrapFileUploadFailed e), [.storageUpload header.filename])
    | .ok fileURL => (.ok fileURL, [.storageUpload header.filename])

/-- ImageService.DeleteImage: no-op on empty URL, else storage.DeleteFile,
wrapping a failure with ErrFileUploadFailed. -/
def DeleteImage (env : SvcEnv) (fileURL : String) :
    Except GoError Unit × List Effect :=
  if fileURL = "" then (.ok (), [])
  else
    match env.storageDelete fileURL with
    | .error e => (.error (.wrapFileUploadFailed e), [.deleteFile fileURL])
    | .ok _ => (.ok (), [.deleteFile fileURL])

/-! ### ProductRepo (internal/repository/postgres/product_repo.go) -/

namespace ProductRepo

/-- ProductRepo.Delete: run the SQL delete; zero rows affected yields
`fmt.Errorf("product not found: %d", id)` — a fresh error value, not the
ErrProductNotFound sentinel. -/
def Delete (env : SvcEnv) (id : Int) : Except GoError Unit :=
  match env.execDelete id with
  | .error e => .error (.wrapped "delete product" e)
  | .ok rowsAffected =>
    if rowsAffected = 0 then
      .error (.fmtErrorf ("product not found: " ++ toString id))
    else
      .ok ()

/-- ProductRepo.UpdateStock: same rows-affected pattern as Delete. -/
def UpdateStock (env : SvcEnv) (id stock : Int) : Except GoError Unit :=
  match env.execUpdateStock id stock with
  | .error e => .error (.wrapped "update product stock" e)
  | .ok rowsAffected =>
    if rowsAffected = 0 then
      .error (.fmtErrorf ("product not found: " ++ toString id))
    else
      .ok ()

end ProductRepo

/-! ### ProductService (internal/service/product_service.go) -/

/-- ProductService.invalidateProductCache: deletes the three keys
`products:all`, `products:<category>` and `"product:"+string(rune(id))`. -/
def invalidateProductCache (category : String) (productID : Int) : List Effect :=
  [.cacheDelete "products:all",
   .cacheDelete ("products:" ++ category),
   .cacheDelete ("product:" ++ goStringOfRune productID)]

/-- Tail of CreateProduct after the (optional) upload: repo insert; on
failure delete the image if one is set, on success invalidate the cache. -/
def createStep (env : SvcEnv) (p : Product) (tr : List Effect) :
    Except GoError Product × List Effect :=
  match env.repoCreate p with
  | .error e =>
    if p.imageURL ≠ "" then
      (.error e, tr ++ [.repoCreate] ++ (DeleteImage env p.imageURL).2)
    else
      (.error e, tr ++ [.repoCreate])
  | .ok newId =>
    let p' := { p with id := newId }
    (.ok p', tr ++ [.repoCreate] ++ invalidateProductCache p'.category p'.id)

/-- ProductService.CreateProduct. -/
def CreateProduct (cfg : Config) (env : SvcEnv) (product : Product)
    (upload : Option FileHeader) : Except GoError Product × List Effect :=
  match upload with
  | some header =>
    match UploadImage cfg env header with
    | (.error e, t1) => (.error e, t1)
    | (.ok imageURL, t1) => createStep env { product with imageURL := imageURL } t1
  | none => createStep env product []

/-- Tail of UpdateProduct after the image branch: repo update; on failure
delete the (new) image when it differs from the old one, on success
invalidate for the old category and, if changed, the new category. -/
def updateStep (env : SvcEnv) (p oldProduct : Product) (tr : List Effect) :
    Except GoError Product × List Effect :=
  match env.repoUpdate p with
  | .error e =>
    if p.imageURL ≠ "" ∧ p.imageURL ≠ oldProduct.imageURL then
      (.error e, tr ++ [.repoUpdate p.id] ++ (DeleteImage env p.imageURL).2)
    else
      (.error e, tr ++ [.repoUpdate p.id])
  | .ok _ =>
    let inv1 := invalidateProductCache oldProduct.category p.id
    let inv2 :=
      if oldProduct.category ≠ p.category then
        invalidateProductCache p.category p.id
      else []
    (.ok p, tr ++ [.repoUpdate p.id] ++ inv1 ++ inv2)

/-- ProductService.UpdateProduct.  NB the source deletes the old image
immediately after a successful upload, before the repository update. -/
def UpdateProduct (cfg : Config) (env : SvcEnv) (product : Product)
    (upload : Option FileHeader) : Except GoError Product × List Effect :=
  match env.repoGetByID product.id with
  | .error e => (.error e, [.repoGetByID product.id])
  | .ok none => (.error .errProductNotFound, [.repoGetByID product.id])
  | .ok (some oldProduct) =>
    match upload with
    | some header =>
      match UploadImage cfg env header with
      | (.error e, t1) => (.error e, .repoGetByID product.id :: t1)
      | (.ok imageURL, t1) =>
        let t2 :=
          if oldProduct.imageURL ≠ "" then
            (DeleteImage env oldProduct.imageURL).2
          else []
        updateStep env { product with imageURL := imageURL } oldProduct
          (.repoGetByID product.id :: (t1 ++ t2))
    | none =>
      updateStep env { product with imageURL := oldProduct.imageURL } oldProduct
        [.repoGetByID product.id]

/-- ProductService.DeleteProduct: fetch, best-effort image delete, repo
delete (rows-affected semantics), cache invalidation on success. -/
def DeleteProduct (env : SvcEnv) (id : Int) : Except GoError Unit × List Effect :=
  match env.repoGetByID id with
  | .error e => (.error e, [.repoGetByID id])
  | .ok none => (.error .errProductNotFound, [.repoGetByID id])
  | .ok (some product) =>
    let t1 := if product.imageURL ≠ "" then (DeleteImage env product.imageURL).2 else []
    match ProductRepo.Delete env id with
    | .error e => (.error e, .repoGetByID id :: (t1 ++ [.repoDelete id]))
    | .ok _ =>
      (.ok (),
       .repoGetByID id :: (t1 ++ [.repoDelete id]
         ++ invalidateProductCache product.category id))

/-- ProductService.GetProduct: cache hit iff Get returned nil error and a
non-nil product; otherwise repository, with nil → ErrProductNotFound, and an
asynchronous cache set on the fresh record. -/
def GetProduct (env : SvcEnv) (id : Int) : Except GoError Product × List Effect :=
  let cacheKey := "product:" ++ goStringOfRune id
  match env.cacheGet cacheKey with
  | .ok (some product) => (.ok product, [.cacheGet cacheKey])
  | _ =>
    match env.repoGetByID id with
    | .error e => (.error e, [.cacheGet cacheKey, .repoGetByID id])
    | .ok none => (.error .errProductNotFound, [.cacheGet cacheKey, .repoGetByID id])
    | .ok (some product) =>
      (.ok product, [.cacheGet cacheKey, .repoGetByID id, .cacheSetAsync cacheKey])

/-- ProductService.UpdateStock: repo update-stock, then delete the single
product key `"product:"+string(rune(id))`. -/
def UpdateStock (env : SvcEnv) (id stock : Int) : Except GoError Unit × List Effect :=
  match ProductRepo.UpdateStock env id stock with
  | .error e => (.error e, [.repoUpdateStock id stock])
  | .ok _ => (.ok (), [.repoUpdateStock id stock, .cacheDelete ("product:" ++ goStringOfRune id)])

/-- ProductService.ListProducts: list then count from the repository, then an
asynchronous cache set under the category list key. -/
def ListProducts (env : SvcEnv) (category : String) (page pageSize : Int) :
    Except GoError (List Product × Int) × List Effect :=
  let cacheKey := if category ≠ "" then "products:" ++ category else "products:all"
  let offset := (page - 1) * pageSize
  match env.repoList category pageSize offset with
  | .error e => (.error e, [.repoList category pageSize offset])
  | .ok products =>
    match env.repoCount category with
    | .error e => (.error e, [.repoList category pageSize offset, .repoCount category])
    | .ok total =>
      (.ok (products, total),
       [.repoList category pageSize offset, .repoCount category, .cacheSetAsync cacheKey])

/-! ### HTTP handler pagination (internal/transport/http/handler/product.go) -/

/-- Page normalization in ProductHandler.ListProducts: `if page < 1 { page = 1 }`. -/
def normalizePage (page : Int) : Int :=
  if page < 1 then 1 else page

/-- Page-size normalization: `if pageSize < 1 || pageSize > 100 { pageSize = 20 }`.
Any out-of-range value is replaced by the default 20. -/
def normalizePageSize (pageSize : Int) : Int :=
  if pageSize < 1 ∨ pageSize > 100 then 20 else pageSize

/-- Modelled from the spec: "a page size (clamped to [1,100], default 20)" read
as a true clamp, for comparison with normalizePageSize. -/
def specClampPageSize (pageSize : Int) : Int :=
  max 1 (min pageSize 100)

/-- The handler's list response fields. -/
structure ListResponse where
  products : List Product
  total : Int
  page : Int
  pageSize : Int
  hasMore : Bool
deriving Repr

/-- ProductHandler.ListProducts: normalize, call the service, derive
`hasMore = total > 0 && page*pageSize < total`. -/
def handlerListProducts (env : SvcEnv) (category : String) (rawPage rawPageSize : Int) :
    Except GoError ListResponse :=
  let page := normalizePage rawPage
  let pageSize := normalizePageSize rawPageSize
  match (ListProducts env category page pageSize).1 with
  | .error e => .error e
  | .ok (products, total) =>
    .ok { products := products, total := total, page := page, pageSize := pageSize,
          hasMore := decide (0 < total ∧ page * pageSize < total) }

/-! ### Trace classifiers -/

def Effect.isDeleteFile : Effect → Bool
  | .deleteFile _ => true
  | _ => false

def Effect.isCacheDelete : Effect → Bool
  | .cacheDelete _ => true
  | _ => false

/-- Any cache operation (get, async set, delete). -/
def Effect.isCacheOp : Effect → Bool
  | .cacheGet _ => true
  | .cacheSetAsync _ => true
  | .cacheDelete _ => true
  | _ => false

/-! ### Concrete fixtures for evaluation, counterexamples and witnesses -/

/-- A configuration matching the default deployment (10 MiB, the three image
MIME types). -/
def cfg0 : Config :=
  { maxUploadSize := 10485760,
    allowedImageTypes := ["image/jpeg", "image/png", "image/webp"] }

/-- A well-formed JPEG upload header. -/
def hdr0 : FileHeader :=
  { filename := "new.jpg", size := 1024, contentType := "image/jpeg" }

/-- An environment in which every collaborator call succeeds blandly. -/
def baseEnv : SvcEnv :=
  { storageUpload := .ok "http://s3/img/base.jpg",
    storageDelete := fun _ => .ok (),
    repoGetByID := fun _ => .ok none,
    repoCreate := fun _ => .ok 1,
    repoUpdate := fun _ => .ok (),
    execDelete := fun _ => .ok 1,
    execUpdateStock := fun _ _ => .ok 1,
    repoList := fun _ _ _ => .ok [],
    repoCount := fun _ => .ok 0,
    cacheGet := fun _ => .ok none,
    cacheSet := fun _ => .ok () }

/-- The persisted record behind id 1, carrying an old image. -/
def oldProd1 : Product :=
  { id := 1, name := "Sofa", description := "old sofa", price := 0.0,
    category := "sofas", stock := 3, imageURL := "http://s3/img/old1.jpg",
    createdAt := 0, updatedAt := 0 }

/-- The caller's updated snapshot for id 1. -/
def newProd1 : Product :=
  { oldProd1 with name := "Sofa v2" }

/-- Update scenario for C1: record 1 has an old image, the upload succeeds
with a fresh URL, and the repository update fails. -/
def env1 : SvcEnv :=
  { baseEnv with
    storageUpload := .ok "http://s3/img/new1.jpg",
    repoGetByID := fun i => if i = 1 then .ok (some oldProd1) else .ok none,
    repoUpdate := fun _ => .error (.wrapped "update product" (.fmtErrorf "db down")) }

/-- The persisted record behind id 2, carrying an old image. -/
def oldProd2 : Product :=
  { id := 2, name := "Chair", description := "old chair", price := 0.0,
    category := "chairs", stock := 7, imageURL := "http://s3/img/old2.png",
    createdAt := 0, updatedAt := 0 }

/-- The caller's updated snapshot for id 2. -/
def newProd2 : Product :=
  { oldProd2 with stock := 9 }

/-- Update scenario for C2: record 2 has an old image, the upload succeeds,
and the repository update fails with a deadlock error. -/
def env2 : SvcEnv :=
  { baseEnv with
    storageUpload := .ok "http://s3/img/new2.png",
    repoGetByID := fun i => if i = 2 then .ok (some oldProd2) else .ok none,
    repoUpdate := fun _ => .error (.fmtErrorf "deadlock detected") }

end FurnShop

namespace FurnShop

/-! ### Claim theorems -/

/-- C1 (code bug): at this concrete input the new upload succeeds, the old
record has an old image URL, and the Repository update fails — yet the trace
shows the delete of the old image (`deleteFile "http://s3/img/old1.jpg"`)
issued BEFORE the `repoUpdate` call, so after the failed update the old image
has already been deleted.  The claim (and spec §4.3 edge case / §8) requires
the old delete only after update success. -/
theorem updateProduct_old_image_deleted_before_update :
    (UpdateProduct cfg0 env1 newProd1 (some hdr0)).1 =
      .error (.wrapped "update product" (.fmtErrorf "db down")) ∧
    (UpdateProduct cfg0 env1 newProd1 (some hdr0)).2 =
      [.repoGetByID 1, .storageUpload "new.jpg", .deleteFile "http://s3/img/old1.jpg",
       .repoUpdate 1, .deleteFile "http://s3/img/new1.jpg"] := by
  constructor <;> rfl

/-- C2 (code bug): with a successful new upload and a failing Repository
update, the compensation does delete the newly uploaded image and the update
error is propagated — but the old image has NOT been left untouched: its
delete is already in the trace (it was issued right after the upload). -/
theorem updateProduct_failed_update_old_image_not_untouched :
    (UpdateProduct cfg0 env2 newProd2 (some hdr0)).1 =
      .error (.fmtErrorf "deadlock detected") ∧
    Effect.deleteFile "http://s3/img/new2.png" ∈ (UpdateProduct cfg0 env2 newProd2 (some hdr0)).2 ∧
    Effect.deleteFile "http://s3/img/old2.png" ∈ (UpdateProduct cfg0 env2 newProd2 (some hdr0)).2 := by
  have ht : (UpdateProduct cfg0 env2 newProd2 (some hdr0)).2 =
      [.repoGetByID 2, .storageUpload "new.jpg", .deleteFile "http://s3/img/old2.png",
       .repoUpdate 2, .deleteFile "http://s3/img/new2.png"] := rfl
  refine ⟨rfl, ?_, ?_⟩ <;> rw [ht] <;> decide

/-- C3 (code bug): the single-item cache key is built with
`string(rune(id))`, so for id 65 the key is `"product:A"`, not the decimal
`"product:65"` the claim states; GetProduct consults the same (wrong) key and
UpdateStock deletes the same (wrong) key, so the three sites agree with each
other but not with the decimal scheme. -/
theorem productCacheKey_uses_rune_not_decimal :
    productCacheKey 65 = "product:A" ∧
    productCacheKey 65 ≠ "product:65" ∧
    (GetProduct baseEnv 65).2 = [.cacheGet "product:A", .repoGetByID 65] ∧
    (UpdateStock baseEnv 65 5).2 = [.repoUpdateStock 65 5, .cacheDelete "product:A"] := by
  refine ⟨by decide, by decide, rfl, rfl⟩

/-- C4: if the upload validated and succeeded with URL `url ≠ ""` and the
Repository insert fails with `e`, then CreateProduct returns exactly `e`
(the insert error unchanged, in particular a failure of the compensating
delete is not surfaced), the Image Gateway delete is invoked exactly once
and exactly with `url`, and no cache operation at all is performed. -/
theorem createProduct_insert_failure_compensates
    (cfg : Config) (env : SvcEnv) (p : Product) (h : FileHeader) (url : String) (e : GoError)
    (hval : ValidateImage cfg h = .ok ())
    (hup : env.storageUpload = .ok url)
    (hurl : url ≠ "")
    (hins : env.repoCreate { p with imageURL := url } = .error e) :
    (CreateProduct cfg env p (some h)).1 = .error e ∧
    (CreateProduct cfg env p (some h)).2.filter Effect.isDeleteFile = [.deleteFile url] ∧
    (CreateProduct cfg env p (some h)).2.filter Effect.isCacheOp = [] := by
  have hbody : ∀ tr, (createStep env { p with imageURL := url } tr).1 = .error e ∧
      (createStep env { p with imageURL := url } tr).2 =
        tr ++ [.repoCreate] ++ (DeleteImage env url).2 := by
    intro tr
    simp only [createStep, hins]
    rw [if_pos (by simpa using hurl)]
    exact ⟨rfl, rfl⟩
  have hdel : (DeleteImage env url).2 = [.deleteFile url] := by
    unfold DeleteImage
    rw [if_neg hurl]
    cases env.storageDelete url <;> rfl
  have hc : CreateProduct cfg env p (some h) =
      createStep env { p with imageURL := url } [.storageUpload h.filename] := by
    simp only [CreateProduct, UploadImage, hval, hup]
  rw [hc, (hbody _).1.symm, hc] at *
  refine ⟨(hbody _).1, ?_, ?_⟩ <;>
    rw [(hbody [.storageUpload h.filename]).2, hdel] <;>
    simp [Effect.isDeleteFile, Effect.isCacheOp, List.filter]

/-- A create scenario for the C4 witness: upload succeeds, insert fails, and
even the compensating delete fails (its failure must not be surfaced). -/
def envC4 : SvcEnv :=
  { baseEnv with
    storageUpload := .ok "http://s3/img/c4.jpg",
    storageDelete := fun _ => .error (.fmtErrorf "s3 unreachable"),
    repoCreate := fun _ => .error (.wrapped "create product" (.fmtErrorf "insert failed")) }

/-- The caller's fresh product for creation (no image set yet). -/
def freshProd : Product :=
  { id := 0, name := "Table", description := "oak table", price := 0.0,
    category := "tables", stock := 2, imageURL := "", createdAt := 0, updatedAt := 0 }

theorem createProduct_insert_failure_compensates_witness :
    (CreateProduct cfg0 envC4 freshProd (some hdr0)).1 =
      .error (.wrapped "create product" (.fmtErrorf "insert failed")) ∧
    (CreateProduct cfg0 envC4 freshProd (some hdr0)).2.filter Effect.isDeleteFile =
      [.deleteFile "http://s3/img/c4.jpg"] ∧
    (CreateProduct cfg0 envC4 freshProd (some hdr0)).2.filter Effect.isCacheOp = [] :=
  createProduct_insert_failure_compensates cfg0 envC4 freshProd hdr0
    "http://s3/img/c4.jpg" (.wrapped "create product" (.fmtErrorf "insert failed"))
    rfl rfl (by decide) rfl

/-- C5: GetProduct semantics.  A cache hit (nil error, non-nil value) returns
the cached record and never reaches the Repository; a cache miss — whether a
redis.Nil miss or a cache-backend error, which degrades to a miss — queries
the Repository, mapping an absent id to the ErrProductNotFound sentinel and
a present record to a successful return; and the result is unchanged under
any outcome of the asynchronous cache population. -/
theorem getProduct_cache_read_semantics (env : SvcEnv) (id : Int) :
    (∀ p, env.cacheGet (productCacheKey id) = .ok (some p) →
        (GetProduct env id).1 = .ok p ∧ Effect.repoGetByID id ∉ (GetProduct env id).2) ∧
    ((env.cacheGet (productCacheKey id) = .ok none ∨
      (∃ e, env.cacheGet (productCacheKey id) = .error e)) →
        Effect.repoGetByID id ∈ (GetProduct env id).2 ∧
        (env.repoGetByID id = .ok none →
          (GetProduct env id).1 = .error .errProductNotFound) ∧
        (∀ p, env.repoGetByID id = .ok (some p) → (GetProduct env id).1 = .ok p)) ∧
    (∀ cs, (GetProduct { env with cacheSet := cs } id).1 = (GetProduct env id).1) := by
  unfold productCacheKey
  refine ⟨?_, ?_, fun cs => rfl⟩
  · intro p hp
    refine ⟨?_, ?_⟩ <;> simp [GetProduct, hp]
  · intro hmiss
    have hred : GetProduct env id =
        (match env.repoGetByID id with
          | .error e => (.error e,
              [.cacheGet ("product:" ++ goStringOfRune id), .repoGetByID id])
          | .ok none => (.error .errProductNotFound,
              [.cacheGet ("product:" ++ goStringOfRune id), .repoGetByID id])
          | .ok (some product) => (.ok product,
              [.cacheGet ("product:" ++ goStringOfRune id), .repoGetByID id,
               .cacheSetAsync ("product:" ++ goStringOfRune id)])) := by
      rcases hmiss with hn | ⟨e, he⟩
      · simp only [GetProduct, hn]
      · simp only [GetProduct, he]
    refine ⟨?_, ?_, ?_⟩
    · rw [hred]; cases hr : env.repoGetByID id with
      | error e => simp
      | ok o => cases o <;> simp
    · intro hn; rw [hred, hn]
    · intro p hp; rw [hred, hp]

/-- A cached record for the C5 witness. -/
def cachedProd : Product :=
  { id := 7, name := "Lamp", description := "cached lamp", price := 0.0,
    category := "lamps", stock := 1, imageURL := "", createdAt := 0, updatedAt := 0 }

/-- Cache-hit environment whose Repository would fail loudly if consulted. -/
def envHit : SvcEnv :=
  { baseEnv with
    cacheGet := fun _ => .ok (some cachedProd),
    repoGetByID := fun _ => .error (.fmtErrorf "repo must not be called") }

theorem getProduct_cache_read_semantics_witness :
    ((GetProduct envHit 7).1 = .ok cachedProd ∧
      Effect.repoGetByID 7 ∉ (GetProduct envHit 7).2) ∧
    (GetProduct baseEnv 7).1 = .error .errProductNotFound :=
  ⟨(getProduct_cache_read_semantics envHit 7).1 cachedProd rfl,
   ((getProduct_cache_read_semantics baseEnv 7).2.1 (Or.inl rfl)).2.1 rfl⟩

/-- C6 counterexample: a page size of 150 is not clamped into [1,100] (which
would give 100): the handler replaces it with the default 20. -/
theorem pageSize150_reset_not_clamped :
    normalizePageSize 150 = 20 ∧ specClampPageSize 150 = 100 ∧
    normalizePageSize 150 ≠ specClampPageSize 150 := by
  refine ⟨rfl, rfl, by decide⟩

/-- C6 amended: the page number is clamped to ≥ 1; a page size outside
[1,100] is replaced by the DEFAULT 20 (not clamped to the nearest bound),
an in-range page size is kept; the Repository is asked for the page at
offset (page-1)*pageSize and, separately, for the total count; and the
handler response carries hasMore = total > 0 && page*pageSize < total. -/
theorem listProducts_pagination_amended (env : SvcEnv) (category : String)
    (rawPage rawPageSize : Int) (products : List Product) (total : Int)
    (hl : env.repoList category (normalizePageSize rawPageSize)
        ((normalizePage rawPage - 1) * normalizePageSize rawPageSize) = .ok products)
    (hc : env.repoCount category = .ok total) :
    1 ≤ normalizePage rawPage ∧
    (1 ≤ rawPage → normalizePage rawPage = rawPage) ∧
    1 ≤ normalizePageSize rawPageSize ∧ normalizePageSize rawPageSize ≤ 100 ∧
    ((rawPageSize < 1 ∨ rawPageSize > 100) → normalizePageSize rawPageSize = 20) ∧
    (1 ≤ rawPageSize → rawPageSize ≤ 100 → normalizePageSize rawPageSize = rawPageSize) ∧
    Effect.repoList category (normalizePageSize rawPageSize)
        ((normalizePage rawPage - 1) * normalizePageSize rawPageSize)
      ∈ (ListProducts env category (normalizePage rawPage) (normalizePageSize rawPageSize)).2 ∧
    Effect.repoCount category
      ∈ (ListProducts env category (normalizePage rawPage) (normalizePageSize rawPageSize)).2 ∧
    handlerListProducts env category rawPage rawPageSize =
      .ok { products := products, total := total,
            page := normalizePage rawPage, pageSize := normalizePageSize rawPageSize,
            hasMore := decide (0 < total ∧
              normalizePage rawPage * normalizePageSize rawPageSize < total) } := by
  refine ⟨?_, ?_, ?_, ?_, ?_, ?_, ?_, ?_, ?_⟩
  · unfold normalizePage; split <;> omega
  · intro hp; unfold normalizePage; split <;> omega
  · unfold normalizePageSize; split <;> omega
  · unfold normalizePageSize; split <;> omega
  · intro hout; unfold normalizePageSize; split
    · rfl
    · omega
  · intro h1 h2; unfold normalizePageSize; split <;> omega
  · simp [ListProducts, hl, hc]
  · simp [ListProducts, hl, hc]
  · simp only [handlerListProducts, ListProducts, hl, hc]

/-- A product used to populate list pages. -/
def rowProd (n : Int) : Product :=
  { id := n, name := "Item", description := "row", price := 0.0,
    category := "", stock := 1, imageURL := "", createdAt := 0, updatedAt := 0 }

/-- Repository with 45 matching rows: offset 0 yields a full page of 20,
offset 40 yields the remaining 5. -/
def envRows45 : SvcEnv :=
  { baseEnv with
    repoList := fun _ _ offset =>
      if offset = 40 then .ok ((List.range 5).map (fun n => rowProd (40 + n)))
      else .ok ((List.range 20).map (fun n => rowProd (offset + n))),
    repoCount := fun _ => .ok 45 }

theorem listProducts_pagination_amended_witness :
    handlerListProducts envRows45 "" 1 20 =
      .ok { products := (List.range 20).map (fun n => rowProd (0 + n)), total := 45,
            page := 1, pageSize := 20, hasMore := true } ∧
    handlerListProducts envRows45 "" 3 20 =
      .ok { products := (List.range 5).map (fun n => rowProd (40 + n)), total := 45,
            page := 3, pageSize := 20, hasMore := false } := by
  constructor
  · have h := (listProducts_pagination_amended envRows45 "" 1 20
      ((List.range 20).map (fun n => rowProd (0 + n))) 45 rfl rfl).2.2.2.2.2.2.2.2
    simpa using h
  · have h := (listProducts_pagination_amended envRows45 "" 3 20
      ((List.range 5).map (fun n => rowProd (40 + n))) 45 rfl rfl).2.2.2.2.2.2.2.2
    simpa using h

/-- The record behind id 4 used for the delete-race scenario. -/
def raceProd : Product :=
  { id := 4, name := "Desk", description := "race desk", price := 0.0,
    category := "desks", stock := 1, imageURL := "", createdAt := 0, updatedAt := 0 }

/-- Delete-race environment: the fetch still sees record 4, but the SQL
delete affects zero rows (a concurrent deletion won). -/
def envRace : SvcEnv :=
  { baseEnv with
    repoGetByID := fun i => if i = 4 then .ok (some raceProd) else .ok none,
    execDelete := fun _ => .ok 0 }

/-- C7 counterexample: when the Repository delete affects zero rows, the
caller receives `fmt.Errorf("product not found: 4")` — a fresh error value —
and NOT the ErrProductNotFound sentinel the claim promises (so the HTTP
layer, which compares against the sentinel, answers 500 rather than 404). -/
theorem deleteProduct_zero_rows_not_sentinel :
    (DeleteProduct envRace 4).1 = .error (.fmtErrorf "product not found: 4") ∧
    (DeleteProduct envRace 4).1 ≠ .error .errProductNotFound := by
  have hres : (DeleteProduct envRace 4).1 = .error (.fmtErrorf "product not found: 4") := rfl
  refine ⟨hres, ?_⟩
  rw [hres]
  simp

/-- Association-list database used for sequential delete calls. -/
def dbGet (db : List (Int × Product)) (id : Int) : Option Product :=
  (db.find? (fun e => e.1 == id)).map (fun e => e.2)

def dbRemove (db : List (Int × Product)) (id : Int) : List (Int × Product) :=
  db.filter (fun e => !(e.1 == id))

/-- Environment whose Repository is backed by the database `db`: GetByID is
the lookup, the SQL delete affects as many rows as carry the id. -/
def dbEnv (db : List (Int × Product)) : SvcEnv :=
  { baseEnv with
    repoGetByID := fun i => .ok (dbGet db i),
    execDelete := fun i => .ok ((db.filter (fun e => e.1 == i)).length) }

/-- The single record in the two-delete scenario. -/
def dbProd : Product :=
  { id := 1, name := "Shelf", description := "one shelf", price := 0.0,
    category := "shelves", stock := 1, imageURL := "", createdAt := 0, updatedAt := 0 }

/-- C7 amended: deleting twice yields success then the ErrProductNotFound
sentinel (the absence is caught by the GetByID precheck); but a delete whose
SQL affects zero rows — the fetch still saw the record and a concurrent
deletion won — yields the fresh error `fmt.Errorf("product not found: <id>")`,
which is NOT the ErrProductNotFound sentinel. -/
theorem deleteProduct_notfound_amended :
    ((DeleteProduct (dbEnv [(1, dbProd)]) 1).1 = .ok () ∧
     (DeleteProduct (dbEnv (dbRemove [(1, dbProd)] 1)) 1).1 = .error .errProductNotFound) ∧
    (∀ env id, env.repoGetByID id = .ok none →
        (DeleteProduct env id).1 = .error .errProductNotFound) ∧
    (∀ env id p, env.repoGetByID id = .ok (some p) → env.execDelete id = .ok 0 →
        (DeleteProduct env id).1 = .error (.fmtErrorf ("product not found: " ++ toString id)) ∧
        (DeleteProduct env id).1 ≠ .error .errProductNotFound) := by
  refine ⟨⟨rfl, rfl⟩, ?_, ?_⟩
  · intro env id habs
    simp only [DeleteProduct, habs]
  · intro env id p hget hzero
    have hres : (DeleteProduct env id).1 =
        .error (.fmtErrorf ("product not found: " ++ toString id)) := by
      simp only [DeleteProduct, hget, ProductRepo.Delete, hzero, ite_true,
        eq_self_iff_true]
    refine ⟨hres, ?_⟩
    rw [hres]
    simp

theorem deleteProduct_notfound_amended_witness :
    (DeleteProduct baseEnv 9).1 = .error .errProductNotFound ∧
    (DeleteProduct envRace 4).1 ≠ .error .errProductNotFound :=
  ⟨deleteProduct_notfound_amended.2.1 baseEnv 9 rfl,
   (deleteProduct_notfound_amended.2.2 envRace 4 raceProd rfl rfl).2⟩

/-- No category list key ever coincides with a single-item key: the two
strings differ at index 7 ('s' versus ':'). -/
theorem productsKey_ne_productKey (c : String) (ch : Char) :
    "products:" ++ c ≠ "product:" ++ String.singleton ch := by
  intro hcontra
  have h7 := congrArg (fun s => s.data.get? 7) hcontra
  simp only [String.data_append] at h7
  have hL : ("products:".data ++ c.data).get? 7 = some 's' := rfl
  have hR : ("product:".data ++ (String.singleton ch).data).get? 7 = some ':' := rfl
  rw [hL, hR] at h7
  exact absurd (Option.some.inj h7) (by decide)

/-- Specialization to the key the code builds from an id. -/
theorem productsKey_ne_goRuneKey (c : String) (id : Int) :
    "products:" ++ c ≠ "product:" ++ goStringOfRune id := by
  simp only [goStringOfRune]
  split
  · exact productsKey_ne_productKey c _
  · exact productsKey_ne_productKey c _

/-- A create environment whose insert succeeds, assigning id 9. -/
def envOkCreate : SvcEnv :=
  { baseEnv with repoCreate := fun _ => .ok 9 }

/-- The caller's new chair (no image). -/
def chairProd : Product :=
  { id := 0, name := "Chair", description := "new chair", price := 0.0,
    category := "chairs", stock := 5, imageURL := "", createdAt := 0, updatedAt := 0 }

/-- C8 counterexample: a successful create invalidates THREE keys — the
claimed two list keys plus the single-product key for the freshly assigned
id — so the single-product key IS deleted, contrary to the claim. -/
theorem createProduct_success_deletes_product_key_too :
    (CreateProduct cfg0 envOkCreate chairProd none).2.filter Effect.isCacheDelete =
      [.cacheDelete "products:all", .cacheDelete "products:chairs",
       .cacheDelete (productCacheKey 9)] ∧
    Effect.cacheDelete (productCacheKey 9) ∈
      (CreateProduct cfg0 envOkCreate chairProd none).2 := by
  have ht : (CreateProduct cfg0 envOkCreate chairProd none).2 =
      [.repoCreate, .cacheDelete "products:all", .cacheDelete "products:chairs",
       .cacheDelete (productCacheKey 9)] := rfl
  refine ⟨rfl, ?_⟩
  rw [ht]
  decide

/-- C8 amended: on every successful create (with or without an upload) the
cache operations are exactly the three deletions `products:all`,
`products:<category>` and the single-item key of the new id, in that order;
no other cache key is touched. -/
theorem createProduct_cache_invalidation_amended
    (cfg : Config) (env : SvcEnv) (p : Product) (h : FileHeader) (url : String) (newId : Int) :
    (env.repoCreate p = .ok newId →
      (CreateProduct cfg env p none).2.filter Effect.isCacheOp =
        [.cacheDelete "products:all", .cacheDelete ("products:" ++ p.category),
         .cacheDelete (productCacheKey newId)]) ∧
    (ValidateImage cfg h = .ok () → env.storageUpload = .ok url →
     env.repoCreate { p with imageURL := url } = .ok newId →
      (CreateProduct cfg env p (some h)).2.filter Effect.isCacheOp =
        [.cacheDelete "products:all", .cacheDelete ("products:" ++ p.category),
         .cacheDelete (productCacheKey newId)]) := by
  constructor
  · intro hins
    simp [CreateProduct, createStep, hins, invalidateProductCache, productCacheKey,
      Effect.isCacheOp, List.filter]
  · intro hval hup hins
    simp [CreateProduct, UploadImage, createStep, hval, hup, hins,
      invalidateProductCache, productCacheKey, Effect.isCacheOp, List.filter]

theorem createProduct_cache_invalidation_amended_witness :
    (CreateProduct cfg0 envOkCreate freshProd none).2.filter Effect.isCacheOp =
      [.cacheDelete "products:all", .cacheDelete "products:tables",
       .cacheDelete (productCacheKey 9)] :=
  (createProduct_cache_invalidation_amended cfg0 envOkCreate freshProd hdr0
    "http://s3/img/unused.jpg" 9).1 rfl

/-- C9: the validation policy.  Oversized files are rejected with
FileTooLarge; a declared MIME type outside the allow-list is rejected with
InvalidFileType; so is a lowercased extension outside the fixed table or
whose canonical MIME type is not allow-listed; acceptance holds exactly when
all three checks pass; the fixed table is {.jpg,.jpeg → image/jpeg,
.png → image/png, .webp → image/webp}; and a validation failure means
UploadImage performs no storage call at all. -/
theorem validateImage_policy (cfg : Config) (h : FileHeader) :
    (cfg.maxUploadSize < h.size → ValidateImage cfg h = .error .errFileTooLarge) ∧
    (h.size ≤ cfg.maxUploadSize → isAllowedImageType cfg h.contentType = false →
        ValidateImage cfg h = .error .errInvalidFileType) ∧
    (h.size ≤ cfg.maxUploadSize → isAllowedImageType cfg h.contentType = true →
        isAllowedExtension cfg (goToLower (filepathExt h.filename)) = false →
        ValidateImage cfg h = .error .errInvalidFileType) ∧
    (ValidateImage cfg h = .ok () ↔
        (h.size ≤ cfg.maxUploadSize ∧ isAllowedImageType cfg h.contentType = true ∧
         isAllowedExtension cfg (goToLower (filepathExt h.filename)) = true)) ∧
    (∀ ext, extToMime ext = none → isAllowedExtension cfg ext = false) ∧
    (∀ ext m, extToMime ext = some m →
        isAllowedExtension cfg ext = isAllowedImageType cfg m) ∧
    (extToMime ".jpg" = some "image/jpeg" ∧ extToMime ".jpeg" = some "image/jpeg" ∧
     extToMime ".png" = some "image/png" ∧ extToMime ".webp" = some "image/webp" ∧
     extToMime ".gif" = none) ∧
    (∀ e env, ValidateImage cfg h = .error e → (UploadImage cfg env h).2 = []) := by
  refine ⟨?_, ?_, ?_, ?_, ?_, ?_, by decide, ?_⟩
  · intro hs
    unfold ValidateImage
    rw [if_pos hs]
  · intro hs hm
    unfold ValidateImage
    rw [if_neg (by omega), if_pos (by simp [hm])]
  · intro hs hm hext
    unfold ValidateImage
    rw [if_neg (by omega), if_neg (by simp [hm]), if_pos (by simp [hext])]
  · unfold ValidateImage
    constructor
    · intro hok
      by_cases h1 : h.size > cfg.maxUploadSize
      · rw [if_pos h1] at hok; exact absurd hok (by simp)
      · rw [if_neg h1] at hok
        by_cases h2 : isAllowedImageType cfg h.contentType = true
        · rw [if_neg (by simp [h2])] at hok
          by_cases h3 : isAllowedExtension cfg (goToLower (filepathExt h.filename)) = true
          · exact ⟨by omega, h2, h3⟩
          · rw [if_pos (by simpa using h3)] at hok; exact absurd hok (by simp)
        · rw [if_pos (by simpa using h2)] at hok; exact absurd hok (by simp)
    · rintro ⟨h1, h2, h3⟩
      rw [if_neg (by omega), if_neg (by simp [h2]), if_neg (by simp [h3])]
  · intro ext hnone
    unfold isAllowedExtension
    rw [hnone]
  · intro ext m hsome
    unfold isAllowedExtension
    rw [hsome]
  · intro e env hfail
    unfold UploadImage
    rw [hfail]

/-- Oversized upload header for the C9 witness. -/
def bigHdr : FileHeader :=
  { filename := "huge.png", size := 10485761, contentType := "image/png" }

/-- Wrong-extension upload header for the C9 witness (declared MIME is
allowed, extension .gif is outside the fixed table). -/
def gifHdr : FileHeader :=
  { filename := "anim.GIF", size := 10, contentType := "image/png" }

theorem validateImage_policy_witness :
    ValidateImage cfg0 bigHdr = .error .errFileTooLarge ∧
    ValidateImage cfg0 gifHdr = .error .errInvalidFileType ∧
    ValidateImage cfg0 hdr0 = .ok () ∧
    (UploadImage cfg0 baseEnv gifHdr).2 = [] :=
  ⟨(validateImage_policy cfg0 bigHdr).1 (by decide),
   (validateImage_policy cfg0 gifHdr).2.2.1 (by decide) (by decide) (by decide),
   ((validateImage_policy cfg0 hdr0).2.2.2.1).mpr ⟨by decide, by decide, by decide⟩,
   (validateImage_policy cfg0 gifHdr).2.2.2.2.2.2.2 .errInvalidFileType baseEnv
     ((validateImage_policy cfg0 gifHdr).2.2.1 (by decide) (by decide) (by decide))⟩

/-- C10: on a successful UpdateStock the only cache operation is the
deletion of the single-item key for that id; in particular no category list
key `products:<c>` (hence neither `products:all`) is ever deleted. -/
theorem updateStock_cache_frame (env : SvcEnv) (id stock : Int)
    (hok : ProductRepo.UpdateStock env id stock = .ok ()) :
    (UpdateStock env id stock).1 = .ok () ∧
    (UpdateStock env id stock).2.filter Effect.isCacheOp =
      [.cacheDelete (productCacheKey id)] ∧
    (∀ c : String, Effect.cacheDelete ("products:" ++ c) ∉ (UpdateStock env id stock).2) := by
  have ht : (UpdateStock env id stock).2 =
      [.repoUpdateStock id stock, .cacheDelete ("product:" ++ goStringOfRune id)] := by
    simp only [UpdateStock, hok]
  refine ⟨by simp only [UpdateStock, hok], ?_, ?_⟩
  · rw [ht]
    simp [Effect.isCacheOp, List.filter, productCacheKey]
  · intro c hmem
    rw [ht] at hmem
    rcases List.mem_cons.mp hmem with h1 | h1
    · exact Effect.noConfusion h1
    · exact productsKey_ne_goRuneKey c id
        (Effect.cacheDelete.inj (List.mem_singleton.mp h1))

theorem updateStock_cache_frame_witness :
    (UpdateStock baseEnv 3 8).1 = .ok () ∧
    (UpdateStock baseEnv 3 8).2.filter Effect.isCacheOp =
      [.cacheDelete (productCacheKey 3)] ∧
    Effect.cacheDelete "products:all" ∉ (UpdateStock baseEnv 3 8).2 :=
  ⟨(updateStock_cache_frame baseEnv 3 8 rfl).1,
   (updateStock_cache_frame baseEnv 3 8 rfl).2.1,
   (updateStock_cache_frame baseEnv 3 8 rfl).2.2 "all"⟩

end FurnShop
